import Mathlib

/-!
# Verification of the autonomous-social-media-agent repository

Shallow embedding of the Python sources under `src/` (orchestrator.py,
agents/base_agent.py, agents/trend_monitor.py, agents/content_generator.py,
agents/engagement_tracker.py) and proofs about the embedded definitions.

Modelling conventions:
* Python numbers are modelled as `ℚ`; values that can be either a number or a
  string (the entries of a caller-supplied `metrics_data` dict) are modelled by
  the dynamic type `PyVal`, and the Python operations that can raise a
  `TypeError` on them return `Except String _`.
* `datetime.now()` is nondeterministic real time; every function that calls it
  takes the produced timestamp string as an explicit `now` argument.
* Python `round` is round-half-to-even on the decimal value; the binary
  floating-point representation error is not modelled.
* `print` calls and the `metadata`/`config` dictionaries that no claim touches
  are modelled only where they carry state; `json.dumps` of a result record is
  modelled by a concrete serialisation function (no claim inspects the
  serialised text, only the shape of the memory log).
* Python strings are modelled by `String`; `len` and slicing act on the list of
  characters (`pyLen`, `pySlice`).
-/

section SocialMediaAgent

-- Batteries marks the rational operations irreducible, which blocks `decide`
-- and `rfl` from evaluating the embedded arithmetic on concrete inputs; the
-- kernel is unaffected.  Restore the default reducibility inside this file.
attribute [local semireducible] Rat.add Rat.mul Rat.inv Rat.sub

deriving instance DecidableEq for Except

/-- A dynamically typed Python value as far as the metrics pipeline can
observe one: a number (int or float, both modelled as `ℚ`) or a string. -/
inductive PyVal where
  | num (q : ℚ)
  | str (s : String)
deriving Repr, DecidableEq

/-- A Python dict with string keys and dynamic values (`metrics_data`). -/
abbrev PyDict := List (String × PyVal)

/-- `d.get(k, default)` on a Python dict. -/
def PyDict.get (d : PyDict) (k : String) (default : PyVal) : PyVal :=
  match d.find? (fun p => p.1 = k) with
  | some p => p.2
  | none => default

/-- Python `+` on dynamic values: number addition, string concatenation,
`TypeError` on a mixed pair (as in `likes + comments + shares`). -/
def pyAdd (a b : PyVal) : Except String PyVal :=
  match a, b with
  | .num x, .num y => .ok (.num (x + y))
  | .str x, .str y => .ok (.str (x ++ y))
  | _, _ => .error "TypeError: unsupported operand type(s) for +"

/-- Python `v > 0` on a dynamic value: comparing a string with a number
raises `TypeError` (as in `if impressions > 0` / `if total > 0`). -/
def pyGtZero (v : PyVal) : Except String Bool :=
  match v with
  | .num q => .ok (decide (0 < q))
  | .str _ => .error "TypeError: '>' not supported between instances of 'str' and 'int'"

/-- Python `a / b` on dynamic values: defined only for two numbers with a
nonzero divisor; anything else raises. -/
def pyDiv (a b : PyVal) : Except String ℚ :=
  match a, b with
  | .num x, .num y =>
      if y = 0 then .error "ZeroDivisionError: division by zero"
      else .ok (x / y)
  | _, _ => .error "TypeError: unsupported operand type(s) for /"

/-- Round-half-to-even to the nearest integer (the tie rule of Python
`round`). -/
def roundHalfEven (q : ℚ) : ℤ :=
  if q - ⌊q⌋ < 1/2 then ⌊q⌋
  else if 1/2 < q - ⌊q⌋ then ⌊q⌋ + 1
  else if ⌊q⌋ % 2 = 0 then ⌊q⌋ else ⌊q⌋ + 1

/-- Python `round(q, d)` on the decimal value of `q`. -/
def pyRound (q : ℚ) (d : ℕ) : ℚ :=
  (roundHalfEven (q * 10 ^ d) : ℚ) / 10 ^ d

/-! ## agents/engagement_tracker.py -/

/-- The dict built by `EngagementTrackerAgent._process_metrics`
(engagement_tracker.py lines 116-124).  `likes`, `comments`, `shares`,
`impressions` and `total_interactions` keep the dynamic values the code put
there; `engagement_rate` and `engagement_rate_percent` are always numbers. -/
structure ProcessedMetrics where
  likes : PyVal
  comments : PyVal
  shares : PyVal
  impressions : PyVal
  total_interactions : PyVal
  engagement_rate : ℚ
  engagement_rate_percent : ℚ
deriving Repr, DecidableEq

/-- `processed.items()` in the insertion order of lines 116-124. -/
def ProcessedMetrics.items (p : ProcessedMetrics) : List (String × PyVal) :=
  [("likes", p.likes), ("comments", p.comments), ("shares", p.shares),
   ("impressions", p.impressions), ("total_interactions", p.total_interactions),
   ("engagement_rate", .num p.engagement_rate),
   ("engagement_rate_percent", .num p.engagement_rate_percent)]

/-- The tracker's `aggregated_metrics`, a `defaultdict(float)`: every key
reads as its accumulated total, `0` before the first write. -/
abbrev Agg := String → ℚ

/-- The `for key, value in processed.items(): if isinstance(value, (int, float)):
aggregated_metrics[key] += value` loop (engagement_tracker.py lines 127-129). -/
def updateAggregates (agg : Agg) (items : List (String × PyVal)) : Agg :=
  items.foldl
    (fun a kv =>
      match kv.2 with
      | .num q => fun k => if k = kv.1 then a kv.1 + q else a k
      | .str _ => a)
    agg

/-- Sum of the numeric values stored under key `k` in an items list (the
per-call contribution of one processed dict to the aggregate at `k`). -/
def itemsContrib : List (String × PyVal) → String → ℚ
  | [], _ => 0
  | kv :: rest, k =>
    (match kv.2 with
     | .num q => if kv.1 = k then q else 0
     | .str _ => 0) + itemsContrib rest k

/-- `EngagementTrackerAgent._process_metrics` (engagement_tracker.py lines
99-131): reads the four count fields (`likes`/`comments`/`shares` default 0,
`impressions` default 1), computes `total_interactions` and
`engagement_rate = total / impressions if impressions > 0 else 0`, rounds,
then folds the numeric entries into the running aggregate.  Any `TypeError`
raised by the dynamic arithmetic propagates as `.error`; the aggregate is
updated only when the whole computation succeeds (the raising expressions all
precede the update loop in the source). -/
def processMetrics (agg : Agg) (metricsData : PyDict) :
    Except String (Agg × ProcessedMetrics) := do
  let likes := metricsData.get "likes" (.num 0)
  let comments := metricsData.get "comments" (.num 0)
  let shares := metricsData.get "shares" (.num 0)
  let impressions := metricsData.get "impressions" (.num 1)
  let total ← do
    let lc ← pyAdd likes comments
    pyAdd lc shares
  let gt ← pyGtZero impressions
  let engagementRate ← if gt then pyDiv total impressions else pure 0
  let processed : ProcessedMetrics :=
    { likes := likes
      comments := comments
      shares := shares
      impressions := impressions
      total_interactions := total
      engagement_rate := pyRound engagementRate 4
      engagement_rate_percent := pyRound (engagementRate * 100) 2 }
  return (updateAggregates agg processed.items, processed)

/-- The contribution one `execute` call with metrics dict `md` makes to the
running aggregate at key `k`: the processed dict's numeric value under `k`
when `_process_metrics` succeeds (its processed result does not depend on the
current aggregate), `0` when it raises. -/
def callContrib (md : PyDict) (k : String) : ℚ :=
  match processMetrics (fun _ => 0) md with
  | .ok (_, p) => itemsContrib p.items k
  | .error _ => 0

/-- The four-bucket status ladder of `_analyze_performance`
(engagement_tracker.py lines 145-152). -/
def performanceStatus (rate : ℚ) : String :=
  if rate ≥ 8/100 then "excellent"
  else if rate ≥ 5/100 then "good"
  else if rate ≥ 3/100 then "average"
  else "needs_improvement"

/-- The `analysis` dict of `_analyze_performance` (lines 160-169). -/
structure Analysis where
  status : String
  engagement_rate : ℚ
  likes_percent : ℚ
  comments_percent : ℚ
  shares_percent : ℚ
  reach : PyVal
deriving Repr, DecidableEq

/-- `EngagementTrackerAgent._analyze_performance` (lines 133-171).  The
breakdown guards `if total > 0` re-raise on a string `total_interactions`;
with a numeric one every division is guarded. -/
def analyzePerformance (p : ProcessedMetrics) : Except String Analysis := do
  let status := performanceStatus p.engagement_rate
  let totalGt ← pyGtZero p.total_interactions
  let likesPercent ← if totalGt then do
      pure (pyRound ((← pyDiv p.likes p.total_interactions) * 100) 2)
    else pure (pyRound 0 2)
  let commentsPercent ← if totalGt then do
      pure (pyRound ((← pyDiv p.comments p.total_interactions) * 100) 2)
    else pure (pyRound 0 2)
  let sharesPercent ← if totalGt then do
      pure (pyRound ((← pyDiv p.shares p.total_interactions) * 100) 2)
    else pure (pyRound 0 2)
  return { status := status
           engagement_rate := p.engagement_rate
           likes_percent := likesPercent
           comments_percent := commentsPercent
           shares_percent := sharesPercent
           reach := p.impressions }

/-- `EngagementTrackerAgent._generate_recommendations` (lines 173-204). -/
def generateRecommendations (a : Analysis) : List String :=
  let base :=
    if a.status = "excellent" then
      ["Excellent engagement! Continue current strategy."]
    else if a.status = "good" then
      ["Good performance. Consider A/B testing new content formats."]
    else if a.status = "average" then
      ["Average engagement. Try increasing content frequency."]
    else
      ["Low engagement. Review content quality and posting times."]
  let base :=
    if a.comments_percent < 20 then
      base ++ ["Consider adding more discussion-prompting questions."]
    else base
  if a.shares_percent < 10 then
    base ++ ["Encourage sharing with clear CTAs and valuable content."]
  else base

/-! ## agents/base_agent.py : memory management -/

/-- One entry of an agent's `memory` list (base_agent.py lines 80-85). -/
structure MemEntry where
  timestamp : String
  role : String
  content : String
  metadata : List (String × String)
deriving Repr, DecidableEq

/-- `BaseAgent.add_to_memory` (base_agent.py lines 67-86): appends one
timestamped entry; `metadata or {}` is the `metadata` argument with the empty
dict for `None`. -/
def addToMemory (memory : List MemEntry) (now role content : String)
    (metadata : Option (List (String × String))) : List MemEntry :=
  memory ++ [{ timestamp := now, role := role, content := content,
               metadata := metadata.getD [] }]

/-- Python `xs[start:]` on a list: a negative `start` counts from the end and
clamps at 0, a non-negative one clamps at the length. -/
def listSliceFrom {α : Type} (xs : List α) (start : ℤ) : List α :=
  let n : ℤ := xs.length
  xs.drop (if start < 0 then max (n + start) 0 else min start n).toNat

/-- `BaseAgent.get_memory` (base_agent.py lines 88-99): `if limit: return
self.memory[-limit:]` — a `None` or `0` limit is falsy, so those return the
whole memory; otherwise the slice `memory[-limit:]`. -/
def getMemory (memory : List MemEntry) (limit : Option ℤ) : List MemEntry :=
  match limit with
  | none => memory
  | some l => if l = 0 then memory else listSliceFrom memory (-l)

/-! ## agents/trend_monitor.py -/

/-- One trend record of `_collect_trends` (trend_monitor.py lines 100-122). -/
structure Trend where
  rank : ℕ
  topic : String
  volume : ℚ
  sentiment : String
  momentum : String
deriving Repr, DecidableEq

/-- The fixed mock list returned by `TrendMonitorAgent._collect_trends`
(lines 100-122); the `query` and `time_range` parameters are unused there. -/
def collectTrendsData : List Trend :=
  [{ rank := 1, topic := "#AIRevolution", volume := 125000,
     sentiment := "positive", momentum := "rising" },
   { rank := 2, topic := "#GenerativeAI", volume := 98000,
     sentiment := "mixed", momentum := "stable" },
   { rank := 3, topic := "#TechInnovation", volume := 87000,
     sentiment := "positive", momentum := "rising" }]

/-- The `analysis` dict of `_analyze_trends` (lines 138-144). -/
structure TrendAnalysis where
  total_trends : ℕ
  positive_sentiment : ℚ
  rising_momentum : ℚ
  avg_volume : ℚ
  engagement_potential : String
deriving Repr, DecidableEq

/-- `TrendMonitorAgent._analyze_trends` (lines 126-145). -/
def analyzeTrends (trends : List Trend) : TrendAnalysis :=
  let positiveCount : ℕ := (trends.filter (fun t => t.sentiment = "positive")).length
  let risingCount : ℕ := (trends.filter (fun t => t.momentum = "rising")).length
  { total_trends := trends.length
    positive_sentiment := if trends ≠ [] then (positiveCount : ℚ) / trends.length else 0
    rising_momentum := if trends ≠ [] then (risingCount : ℚ) / trends.length else 0
    avg_volume := if trends ≠ [] then
        (trends.foldl (fun acc t => acc + t.volume) 0) / trends.length else 0
    engagement_potential :=
      if (risingCount : ℚ) > trends.length * (1/2) then "high" else "medium" }

/-- `TrendMonitorAgent._generate_insights` (lines 147-170). -/
def generateInsights (a : TrendAnalysis) : List String :=
  let insights : List String := []
  let insights := if a.positive_sentiment > 6/10 then
      insights ++ ["Strong positive sentiment detected - optimal for brand promotion"]
    else insights
  let insights := if a.rising_momentum > 1/2 then
      insights ++ ["Multiple rising trends identified - recommend content alignment"]
    else insights
  let insights := if a.avg_volume > 90000 then
      insights ++ ["High engagement volume detected - prioritize relevant content"]
    else insights
  if insights = [] then ["Monitor trends closely for emerging opportunities"] else insights

/-- The result dict of `TrendMonitorAgent.execute` (lines 60-67). -/
structure TrendResult where
  status : String
  platform : String
  trends : List Trend
  analysis : TrendAnalysis
  insights : List String
  timestamp : String
deriving Repr, DecidableEq

/-- Mutable state of a `TrendMonitorAgent` (its `__init__`, lines 22-41):
platform, trends cache and the inherited memory log.  (`analysis_interval`
and `last_analysis` are set at init and never read; `config` is empty.) -/
structure TrendState where
  platform : String
  trendsCache : List Trend
  memory : List MemEntry
deriving Repr, DecidableEq

/-- Abbreviated stand-in for `json.dumps(result)` in `TrendMonitorAgent.execute`
(line 69).  Only the shape of the memory log matters to any claim, never the
serialised text, so the rendering keeps the scalar fields only. -/
def trendResultDumps (r : TrendResult) : String :=
  "\x7b\"status\": \"" ++ r.status ++ "\", \"platform\": \"" ++ r.platform ++
    "\", \"timestamp\": \"" ++ r.timestamp ++ "\"\x7d"

/-- `TrendMonitorAgent.execute` (trend_monitor.py lines 43-70): collects the
fixed trend list (caching it), analyses it, generates insights, stores the
result in memory and returns it.  `query` and `time_range` are read from the
input (defaults `""` and `"24h"`) but `_collect_trends` ignores them. -/
def trendExecute (now : String) (s : TrendState) (query timeRange : String) :
    TrendState × TrendResult :=
  let _ := query
  let _ := timeRange
  let trends := collectTrendsData
  let analysis := analyzeTrends trends
  let insights := generateInsights analysis
  let result : TrendResult :=
    { status := "success", platform := s.platform, trends := trends,
      analysis := analysis, insights := insights, timestamp := now }
  ({ s with trendsCache := trends,
            memory := addToMemory s.memory now "assistant" (trendResultDumps result) none },
   result)

/-! ## agents/content_generator.py -/

/-- `len` on a Python string, counting characters. -/
def pyLen (s : String) : ℕ := s.data.length

/-- Python `s[:n]`: the first `n` characters. -/
def pySlice (s : String) (n : ℕ) : String := ⟨s.data.take n⟩

/-- Python `sep.join(xs)`. -/
def pyJoin (sep : String) (xs : List String) : String := String.intercalate sep xs

/-- `d.get(k)` on a string-valued Python dict: `None` when absent. -/
def dictGetStr (d : List (String × String)) (k : String) : Option String :=
  (d.find? (fun p => p.1 = k)).map (fun p => p.2)

/-- Python `a or b` on an optional string: a `None` or empty (falsy) left
operand selects the right one. -/
def pyOrStr (a b : Option String) : Option String :=
  match a with
  | some s => if s = "" then b else some s
  | none => b

/-- Rendering a value in an f-string: `None` prints as `"None"`. -/
def pyStrOfOpt (o : Option String) : String := o.getD "None"

/-- `ContentGeneratorAgent._initialize_templates` (content_generator.py
lines 140-152). -/
def initializeTemplates : List (String × String) :=
  [("conversational", "Let's talk about this..."),
   ("educational", "Did you know?"),
   ("inspirational", "Here's something that caught our attention..."),
   ("promotional", "Check out what we've been working on..."),
   ("news", "Breaking: Latest updates")]

/-- Mutable state of a `ContentGeneratorAgent` (its `__init__`, lines 22-46):
platform, brand-voice dict, template dict, memory log. -/
structure CGState where
  platform : String
  brandVoice : List (String × String)
  contentTemplates : List (String × String)
  memory : List MemEntry
deriving Repr, DecidableEq

/-- The default brand voice of `__init__` (lines 41-45), used when the
constructor argument is `None`. -/
def defaultBrandVoice : List (String × String) :=
  [("tone", "professional"), ("style", "conversational"),
   ("values", "innovation, transparency, excellence")]

/-- `ContentGeneratorAgent._generate_content` (lines 94-116): template lookup
by style (`None`/unknown style gives the empty template) and the fixed
multi-line f-string. -/
def generateContent (s : CGState) (topic : String) (tone style : Option String) :
    String :=
  let template := (style.bind (fun st => dictGetStr s.contentTemplates st)).getD ""
  template ++ "\n\nTopic: " ++ topic ++ "\nTone: " ++ pyStrOfOpt tone ++
    "\nBrand Voice: " ++ pyStrOfOpt (dictGetStr s.brandVoice "tone") ++
    "\n\nGenerated content for social media engagement."

/-- `ContentGeneratorAgent._optimize_for_platform` (lines 118-138): truncate
to 280 characters for twitter, prepend a hook label for tiktok, prepend a
visual-description label for instagram, otherwise pass through. -/
def optimizeForPlatform (platform content : String) : String :=
  if platform = "twitter" then pySlice content 280
  else if platform = "tiktok" then "Hook: " ++ content
  else if platform = "instagram" then "[Visual: infographic]\n" ++ content
  else content

/-- The input dict of `ContentGeneratorAgent.execute` as the orchestrator or a
caller supplies it: `topic` (defaulted to `""` by `.get`), optional `tone`
and `style`, and a hashtag list (defaulted to `[]`). -/
structure CGInput where
  topic : String
  tone : Option String
  style : Option String
  hashtags : List String
deriving Repr, DecidableEq

/-- The result dict of `ContentGeneratorAgent.execute` (lines 66-75). -/
structure CGResult where
  status : String
  platform : String
  content : String
  topic : String
  tone : Option String
  style : Option String
  length : ℕ
  timestamp : String
deriving Repr, DecidableEq

/-- Abbreviated stand-in for `json.dumps(result)` in
`ContentGeneratorAgent.execute` (line 77); see `trendResultDumps`. -/
def cgResultDumps (r : CGResult) : String :=
  "\x7b\"status\": \"" ++ r.status ++ "\", \"content\": \"" ++ r.content ++
    "\", \"length\": " ++ toString r.length ++ "\x7d"

/-- `ContentGeneratorAgent.execute` (content_generator.py lines 48-78):
resolves tone/style with Python `or` against the brand voice, generates and
platform-optimises the text, appends the space-joined hashtags after a blank
line when the hashtag list is truthy (non-empty), records the result in
memory and returns it. -/
def cgExecute (now : String) (s : CGState) (inp : CGInput) : CGState × CGResult :=
  let tone := pyOrStr inp.tone (dictGetStr s.brandVoice "tone")
  let style := pyOrStr inp.style (dictGetStr s.brandVoice "style")
  let content := generateContent s inp.topic tone style
  let optimized := optimizeForPlatform s.platform content
  let withHashtags :=
    if inp.hashtags ≠ [] then optimized ++ "\n\n" ++ pyJoin " " inp.hashtags
    else optimized
  let result : CGResult :=
    { status := "success", platform := s.platform, content := withHashtags,
      topic := inp.topic, tone := tone, style := style,
      length := pyLen withHashtags, timestamp := now }
  ({ s with memory := addToMemory s.memory now "assistant" (cgResultDumps result) none },
   result)

/-! ## agents/engagement_tracker.py : agent state and execute -/

/-- The result dict of `EngagementTrackerAgent.execute` (lines 61-68). -/
structure TrackerResult where
  status : String
  platform : String
  metrics : ProcessedMetrics
  analysis : Analysis
  recommendations : List String
  timestamp : String
deriving Repr, DecidableEq

/-- Mutable state of an `EngagementTrackerAgent` (its `__init__`, lines
23-42): platform, metrics history, performance threshold, running aggregate
and the inherited memory log. -/
structure TrackerState where
  platform : String
  metricsHistory : List TrackerResult
  performanceThreshold : ℚ
  aggregated : Agg
  memory : List MemEntry

/-- Abbreviated stand-in for `json.dumps(result)` in
`EngagementTrackerAgent.execute` (line 71); see `trendResultDumps`. -/
def trackerResultDumps (r : TrackerResult) : String :=
  "\x7b\"status\": \"" ++ r.status ++ "\", \"platform\": \"" ++ r.platform ++
    "\", \"analysis_status\": \"" ++ r.analysis.status ++ "\"\x7d"

/-- `EngagementTrackerAgent.execute` (engagement_tracker.py lines 44-72) on
the `metrics_data` entry of its input (`time_period` is read and unused).
`_process_metrics` both computes the processed dict and updates the running
aggregate; a `TypeError` raised by either `_process_metrics` or
`_analyze_performance` propagates out of `execute` (there is no try block in
the agent), leaving any aggregate update that already happened in place and
skipping the history/memory appends. -/
def trackerExecute (now : String) (s : TrackerState) (metricsData : PyDict) :
    TrackerState × Except String TrackerResult :=
  match processMetrics s.aggregated metricsData with
  | .error e => (s, .error e)
  | .ok (agg', processed) =>
    let s := { s with aggregated := agg' }
    match analyzePerformance processed with
    | .error e => (s, .error e)
    | .ok analysis =>
      let recommendations := generateRecommendations analysis
      let result : TrackerResult :=
        { status := "success", platform := s.platform, metrics := processed,
          analysis := analysis, recommendations := recommendations, timestamp := now }
      ({ s with metricsHistory := s.metricsHistory ++ [result],
                memory := addToMemory s.memory now "assistant"
                  (trackerResultDumps result) none },
       .ok result)

/-! ## orchestrator.py -/

/-- A `WorkflowResult` dict.  A success result (lines 105-113) has the
`trends`/`content`/`engagement_analysis`/`recommendations` keys and no
`error` key; an error result (lines 119-124) has only the `error` key of
those — absent keys are `none`. -/
structure WfResult where
  workflow_id : String
  status : String
  error : Option String
  timestamp : String
  trends : Option (List Trend)
  content : Option String
  engagement_analysis : Option Analysis
  recommendations : Option (List String)
deriving Repr, DecidableEq

/-- The error-status dict built in the `except` branch (lines 119-124). -/
def errorWfResult (now e : String) : WfResult :=
  { workflow_id := now, status := "error", error := some e, timestamp := now,
    trends := none, content := none, engagement_analysis := none,
    recommendations := none }

/-- The orchestrator's shared `state` dict (orchestrator.py lines 35-39):
`trends`, `generated_content`, `engagement_metrics` (the last starts as the
empty dict, modelled as `none`, and is later set to an analysis dict). -/
structure OrchState where
  trends : List Trend
  generatedContent : List CGResult
  engagementMetrics : Option Analysis

/-- Full orchestrator: the three agent instances of `_initialize_agents`
(lines 44-55), the execution history and the shared state. -/
structure Orchestrator where
  trendMonitor : TrendState
  contentGenerator : CGState
  engagementTracker : TrackerState
  executionHistory : List WfResult
  state : OrchState

/-- `AgentOrchestrator.__init__` + `_initialize_agents` (lines 26-55) for a
config carrying a platform and an optional brand voice. -/
def initOrchestrator (platform : Option String)
    (brandVoice : Option (List (String × String))) : Orchestrator :=
  let p := platform.getD "twitter"
  { trendMonitor := { platform := p, trendsCache := [], memory := [] }
    contentGenerator :=
      { platform := p, brandVoice := brandVoice.getD defaultBrandVoice,
        contentTemplates := initializeTemplates, memory := [] }
    engagementTracker :=
      { platform := p, metricsHistory := [], performanceThreshold := 6/10,
        aggregated := fun _ => 0, memory := [] }
    executionHistory := []
    state := { trends := [], generatedContent := [], engagementMetrics := none } }

/-- The input dict of `execute_workflow` as §6 of the code's own usage shows
it: optional `query`, `topic`, `tone`, a hashtag list (default `[]`) and a
raw metrics dict (default `{}`). -/
structure WfInput where
  query : Option String
  topic : Option String
  tone : Option String
  hashtags : List String
  metrics : PyDict

/-- The topic expression of `execute_workflow` (orchestrator.py lines 84-86):
`input_params.get("topic") or trend_result.get("trends", [{}])[0].get("topic", "")`.
Python `or` evaluates lazily, so a truthy (non-empty) explicit topic never
touches the trend list; a `None` or empty topic falls through to indexing the
trend list, which raises `IndexError` when that list is empty. -/
def resolveTopic (topic : Option String) (trends : List Trend) :
    Except String String :=
  match topic with
  | some t =>
      if t = "" then
        match trends with
        | [] => .error "IndexError: list index out of range"
        | t0 :: _ => .ok t0.topic
      else .ok t
  | none =>
      match trends with
      | [] => .error "IndexError: list index out of range"
      | t0 :: _ => .ok t0.topic

/-- The body of the `try` block of `execute_workflow` (orchestrator.py lines
74-116) up to but excluding the history append: runs the three agents in
sequence, threading the shared state exactly as the source mutates it, and
returns the success `WorkflowResult` or the first exception.  State changes
made before an exception (trend assignment, content append, any tracker
aggregate update) are kept — the source has no rollback. -/
def workflowTryBody (now : String) (o : Orchestrator) (inp : WfInput) :
    Orchestrator × Except String WfResult :=
  let (tm', trendResult) := trendExecute now o.trendMonitor (inp.query.getD "") "24h"
  let o := { o with trendMonitor := tm',
                    state := { o.state with trends := trendResult.trends } }
  match resolveTopic inp.topic trendResult.trends with
  | .error e => (o, .error e)
  | .ok topic =>
    let (cg', contentResult) := cgExecute now o.contentGenerator
      { topic := topic, tone := inp.tone, style := none, hashtags := inp.hashtags }
    let o := { o with contentGenerator := cg',
                      state := { o.state with generatedContent :=
                        o.state.generatedContent ++ [contentResult] } }
    match trackerExecute now o.engagementTracker inp.metrics with
    | (et', .error e) => ({ o with engagementTracker := et' }, .error e)
    | (et', .ok engagementResult) =>
      let o := { o with engagementTracker := et',
                        state := { o.state with
                          engagementMetrics := some engagementResult.analysis } }
      (o, .ok { workflow_id := now, status := "success", error := none,
                timestamp := now, trends := some o.state.trends,
                content := some contentResult.content,
                engagement_analysis := o.state.engagementMetrics,
                recommendations := some engagementResult.recommendations })

/-- `AgentOrchestrator.execute_workflow` (orchestrator.py lines 57-124): on
success append the result to the execution history and return it; any
exception raised inside the `try` block is caught by the `except` branch and
converted into an error-status result that is returned *without* an append.
The function is total: no exception propagates to the caller. -/
def executeWorkflow (now : String) (o : Orchestrator) (inp : WfInput) :
    Orchestrator × WfResult :=
  match workflowTryBody now o inp with
  | (o', .ok result) =>
      ({ o' with executionHistory := o'.executionHistory ++ [result] }, result)
  | (o', .error e) => (o', errorWfResult now e)

/-- `AgentOrchestrator.get_execution_history` (lines 162-173), the same
`if limit:` pattern as `get_memory`. -/
def getExecutionHistory (history : List WfResult) (limit : Option ℤ) :
    List WfResult :=
  match limit with
  | none => history
  | some l => if l = 0 then history else listSliceFrom history (-l)

/-- `AgentOrchestrator.reset_state` (orchestrator.py lines 188-195): replaces
the shared state dict with a fresh empty one and touches nothing else. -/
def resetState (o : Orchestrator) : Orchestrator :=
  { o with state := { trends := [], generatedContent := [],
                      engagementMetrics := none } }

/-! ## Concrete fixtures used by witnesses and counterexamples -/

/-- An orchestrator as `AgentOrchestrator()` builds one with no config. -/
def exOrch : Orchestrator := initOrchestrator none none

/-- A well-typed workflow input (the example of `orchestrator.py.__main__`,
with an empty metrics dict). -/
def goodInp : WfInput :=
  { query := some "AI trends", topic := some "Artificial Intelligence",
    tone := some "professional", hashtags := ["#AI"], metrics := [] }

/-- A workflow input whose metrics dict carries a string where a count is
expected; the tracker's `likes + comments` raises `TypeError` on it. -/
def badInp : WfInput :=
  { query := none, topic := none, tone := none, hashtags := [],
    metrics := [("likes", .str "x")] }

/-- A 300-character string, longer than the twitter limit. -/
def longText : String := ⟨List.replicate 300 'a'⟩

/-- A two-entry memory log built by two `add_to_memory` calls. -/
def exMem : List MemEntry :=
  addToMemory (addToMemory [] "t1" "user" "a" none) "t2" "user" "b" none

-- sanity checks: the embedded system reproduces the spec's end-to-end
-- scenario (§8 of spec.md) on the example input
example : (executeWorkflow "t0" exOrch goodInp).2.status = "success" := by decide
example :
    ((executeWorkflow "t0" exOrch goodInp).2.content.getD "").data.reverse.take 3 =
      ['I', 'A', '#'] := by decide
example : (executeWorkflow "t0" exOrch goodInp).2.engagement_analysis =
    some { status := "needs_improvement", engagement_rate := 0, likes_percent := 0,
           comments_percent := 0, shares_percent := 0, reach := .num 1 } := by decide

/-! ## Theorems -/

/-- C6: performance status is a total, non-overlapping function of
`engagement_rate`: `rate ≥ 0.08` classifies as `"excellent"`,
`0.05 ≤ rate < 0.08` as `"good"`, `0.03 ≤ rate < 0.05` as `"average"` and
`rate < 0.03` as `"needs_improvement"`; in particular rate `0.10` gives
`"excellent"`, `0.06` gives `"good"`, `0.04` gives `"average"` and `0.01`
gives `"needs_improvement"`. -/
theorem performance_status_ladder :
    (∀ rate : ℚ,
      (performanceStatus rate = "excellent" ↔ 8/100 ≤ rate) ∧
      (performanceStatus rate = "good" ↔ 5/100 ≤ rate ∧ rate < 8/100) ∧
      (performanceStatus rate = "average" ↔ 3/100 ≤ rate ∧ rate < 5/100) ∧
      (performanceStatus rate = "needs_improvement" ↔ rate < 3/100)) ∧
    performanceStatus (10/100) = "excellent" ∧
    performanceStatus (6/100) = "good" ∧
    performanceStatus (4/100) = "average" ∧
    performanceStatus (1/100) = "needs_improvement" := by
  refine ⟨fun rate => ?_, by decide, by decide, by decide, by decide⟩
  unfold performanceStatus
  split_ifs with h1 h2 h3 <;>
    refine ⟨?_, ?_, ?_, ?_⟩ <;> simp_all <;> first | linarith | (intro h; linarith)

/-- C1 counterexample: for the metrics dict `{likes: 5, impressions: 0}` the
code computes `engagement_rate = 0` while `total_interactions = 5`, so a
zero-impression input does **not** yield `engagement_rate = total_interactions`
(the claimed flooring of the denominator to 1 happens only for a *missing*
impressions key, not for an explicit 0). -/
theorem process_metrics_zero_impressions_cex :
    (processMetrics (fun _ => 0) [("likes", .num 5), ("impressions", .num 0)]).map
        (fun r => (r.2.engagement_rate, r.2.total_interactions)) =
      .ok (0, .num 5) ∧
    (processMetrics (fun _ => 0) [("likes", .num 5), ("impressions", .num 0)]).map
        (fun r => r.2.engagement_rate) ≠ .ok 5 := by
  constructor <;> decide

/-- C1 (amended): with all four count fields numeric (missing ones defaulting
to 0, a missing impressions key defaulting to 1), `_process_metrics` succeeds;
when impressions ≥ 1 the engagement rate is `(likes+comments+shares)/impressions`
rounded to 4 decimal places, while an explicitly zero impressions value takes
the `else 0` branch and yields rate 0 (not `total_interactions`). -/
theorem process_metrics_engagement_rate (agg : Agg) (md : PyDict) (l c sh i : ℚ)
    (hl : md.get "likes" (.num 0) = .num l)
    (hc : md.get "comments" (.num 0) = .num c)
    (hs : md.get "shares" (.num 0) = .num sh)
    (hi : md.get "impressions" (.num 1) = .num i) :
    (processMetrics agg md).map (fun r => r.2.total_interactions) =
      .ok (.num (l + c + sh)) ∧
    (1 ≤ i →
      (processMetrics agg md).map (fun r => r.2.engagement_rate) =
        .ok (pyRound ((l + c + sh) / i) 4)) ∧
    (i = 0 →
      (processMetrics agg md).map (fun r => r.2.engagement_rate) = .ok 0) := by
  unfold processMetrics
  rw [hl, hc, hs, hi]
  simp only [pyAdd, pyGtZero, pyDiv, bind, Except.bind, pure, Except.pure, Except.map]
  by_cases h0 : (0:ℚ) < i
  · have hne : i ≠ 0 := ne_of_gt h0
    simp [h0, hne]
  · simp [h0]
    refine ⟨fun h1 => absurd (lt_of_lt_of_le one_pos h1) ?_, ?_⟩
    · simpa using h0
    · intro
      simp [pyRound, roundHalfEven]

/-- C1 witness: the amended theorem applied to `{likes: 4, impressions: 2}`
(impressions ≥ 1) and to `{likes: 5, impressions: 0}` (explicit zero). -/
theorem process_metrics_engagement_rate_witness :
    (processMetrics (fun _ => 0) [("likes", .num 4), ("impressions", .num 2)]).map
        (fun r => r.2.engagement_rate) = .ok (pyRound ((4 + 0 + 0) / 2) 4) ∧
    (processMetrics (fun _ => 0) [("likes", .num 5), ("impressions", .num 0)]).map
        (fun r => r.2.engagement_rate) = .ok 0 :=
  ⟨(process_metrics_engagement_rate (fun _ => 0)
      [("likes", .num 4), ("impressions", .num 2)] 4 0 0 2
      (by decide) (by decide) (by decide) (by decide)).2.1 (by norm_num),
   (process_metrics_engagement_rate (fun _ => 0)
      [("likes", .num 5), ("impressions", .num 0)] 5 0 0 0
      (by decide) (by decide) (by decide) (by decide)).2.2 rfl⟩

/-- C2: for a content generator whose platform is `"twitter"`, the platform
post-process truncates any text longer than 280 characters to exactly 280
characters and its output never exceeds 280 characters; and for every input
to `execute`, a non-empty hashtag list is appended space-joined after a blank
line to the optimised text (an empty one leaves it unchanged). -/
theorem twitter_truncation_and_hashtags (s : CGState) (h : s.platform = "twitter")
    (c : String) (inp : CGInput) (now : String) :
    pyLen (optimizeForPlatform s.platform c) ≤ 280 ∧
    (280 < pyLen c →
      optimizeForPlatform s.platform c = pySlice c 280 ∧
      pyLen (optimizeForPlatform s.platform c) = 280) ∧
    (inp.hashtags ≠ [] →
      (cgExecute now s inp).2.content =
        optimizeForPlatform s.platform
            (generateContent s inp.topic
              (pyOrStr inp.tone (dictGetStr s.brandVoice "tone"))
              (pyOrStr inp.style (dictGetStr s.brandVoice "style"))) ++
          ("\n\n" ++ pyJoin " " inp.hashtags)) ∧
    (inp.hashtags = [] →
      (cgExecute now s inp).2.content =
        optimizeForPlatform s.platform
          (generateContent s inp.topic
            (pyOrStr inp.tone (dictGetStr s.brandVoice "tone"))
            (pyOrStr inp.style (dictGetStr s.brandVoice "style")))) := by
  have hopt : ∀ c' : String, optimizeForPlatform s.platform c' = pySlice c' 280 := by
    intro c'
    simp [optimizeForPlatform, h]
  refine ⟨?_, fun hlong => ⟨hopt c, ?_⟩, fun hne => ?_, fun hnil => ?_⟩
  · rw [hopt]
    simp [pyLen, pySlice]
  · rw [hopt]
    simp [pyLen, pySlice] at hlong ⊢
    omega
  · simp [cgExecute, hne, String.append_assoc]
  · simp [cgExecute, hnil]

set_option maxRecDepth 4000 in
/-- C2 witness: the theorem applied to the default twitter content generator,
a 300-character text and inputs with and without hashtags. -/
theorem twitter_truncation_and_hashtags_witness :
    pyLen (optimizeForPlatform exOrch.contentGenerator.platform longText) = 280 ∧
    (cgExecute "t" exOrch.contentGenerator
        { topic := "AI", tone := none, style := none, hashtags := ["#AI"] }).2.content =
      optimizeForPlatform exOrch.contentGenerator.platform
          (generateContent exOrch.contentGenerator "AI"
            (pyOrStr none (dictGetStr exOrch.contentGenerator.brandVoice "tone"))
            (pyOrStr none (dictGetStr exOrch.contentGenerator.brandVoice "style"))) ++
        ("\n\n" ++ pyJoin " " ["#AI"]) :=
  ⟨((twitter_truncation_and_hashtags exOrch.contentGenerator rfl longText
      { topic := "AI", tone := none, style := none, hashtags := ["#AI"] } "t").2.1
      (by decide)).2,
   (twitter_truncation_and_hashtags exOrch.contentGenerator rfl longText
      { topic := "AI", tone := none, style := none, hashtags := ["#AI"] } "t").2.2.1
      (by decide)⟩

/-- C3 counterexample: the workflow input with the explicit topic `""` does
not use that value verbatim — Python's `or` treats the empty string as falsy,
so the content generator receives the first trend's topic `"#AIRevolution"`
instead. -/
theorem workflow_topic_resolution_cex :
    ((executeWorkflow "t0" exOrch
        { query := none, topic := some "", tone := none, hashtags := [],
          metrics := [] }).1.state.generatedContent).getLast?.map
      (fun r => r.topic) = some "#AIRevolution" ∧
    resolveTopic (some "") collectTrendsData = .ok "#AIRevolution" ∧
    resolveTopic (some "") collectTrendsData ≠ .ok "" := by
  refine ⟨by decide, by decide, by decide⟩

/-- C3 (amended): with no explicit topic and a non-empty trend list the chosen
topic is the first trend's topic field, and an explicit **non-empty** topic is
used verbatim regardless of the trend list; an explicit empty topic is falsy
under Python `or` and falls back to the first trend's topic.  In
`execute_workflow` the topic handed to the content generator (recorded in the
appended content result) is exactly `resolveTopic` of the input topic and the
fixed collected trends. -/
theorem workflow_topic_resolution :
    (∀ (topic? : Option String) (t : String) (trends : List Trend),
      topic? = some t → t ≠ "" → resolveTopic topic? trends = .ok t) ∧
    (∀ (topic? : Option String) (t0 : Trend) (ts : List Trend),
      topic? = none ∨ topic? = some "" →
      resolveTopic topic? (t0 :: ts) = .ok t0.topic) ∧
    (∀ (now : String) (o : Orchestrator) (inp : WfInput) (t : String),
      resolveTopic inp.topic collectTrendsData = .ok t →
      ((executeWorkflow now o inp).1.state.generatedContent).getLast?.map
        (fun r => r.topic) = some t) := by
  refine ⟨?_, ?_, ?_⟩
  · rintro topic? t trends rfl ht
    simp [resolveTopic, ht]
  · rintro topic? t0 ts (rfl | rfl) <;> simp [resolveTopic]
  · intro now o inp t ht
    simp only [executeWorkflow, workflowTryBody, trendExecute]
    rw [ht]
    rcases h : trackerExecute now o.engagementTracker inp.metrics with ⟨et', res⟩
    cases res <;> simp [cgExecute, h, List.getLast?_concat]

/-- C3 witness: the amended theorem applied to a non-empty explicit topic, to
an absent topic, and to the orchestrator run on the example input. -/
theorem workflow_topic_resolution_witness :
    resolveTopic (some "Artificial Intelligence") [] = .ok "Artificial Intelligence" ∧
    resolveTopic none collectTrendsData = .ok "#AIRevolution" ∧
    ((executeWorkflow "t0" exOrch goodInp).1.state.generatedContent).getLast?.map
      (fun r => r.topic) = some "Artificial Intelligence" :=
  ⟨workflow_topic_resolution.1 (some "Artificial Intelligence")
      "Artificial Intelligence" [] rfl (by decide),
   by
    have h := workflow_topic_resolution.2.1 none
      { rank := 1, topic := "#AIRevolution", volume := 125000,
        sentiment := "positive", momentum := "rising" }
      collectTrendsData.tail (Or.inl rfl)
    exact h,
   workflow_topic_resolution.2.2 "t0" exOrch goodInp "Artificial Intelligence"
      (by decide)⟩

/-- The `try` body never touches the execution history; only the success
branch of `execute_workflow` appends to it. -/
lemma workflowTryBody_executionHistory (now : String) (o : Orchestrator)
    (inp : WfInput) :
    (workflowTryBody now o inp).1.executionHistory = o.executionHistory := by
  simp only [workflowTryBody, trendExecute]
  rcases hr : resolveTopic inp.topic collectTrendsData with e | tp <;>
    simp only [hr, cgExecute]
  rcases h : trackerExecute now o.engagementTracker inp.metrics with ⟨et', res⟩
  cases res <;> simp [h]

/-- A result the `try` body returns successfully carries status `"success"`. -/
lemma workflowTryBody_ok_status (now : String) (o : Orchestrator) (inp : WfInput)
    (o' : Orchestrator) (r : WfResult) (h : workflowTryBody now o inp = (o', .ok r)) :
    r.status = "success" := by
  simp only [workflowTryBody, trendExecute] at h
  rcases hr : resolveTopic inp.topic collectTrendsData with e | tp <;>
    rw [hr] at h <;> simp only [cgExecute] at h
  · simp at h
  · rcases htr : trackerExecute now o.engagementTracker inp.metrics with ⟨et', res⟩
    rw [htr] at h
    cases res with
    | error e => simp at h
    | ok engagementResult =>
      obtain ⟨-, h2⟩ := Prod.mk.injEq .. ▸ h
      cases h2
      rfl

/-- C4 (amended): a successful invocation of `execute_workflow` appends its
result to the execution history (so the history grows by exactly one and every
earlier entry is preserved, and the history is never pruned); an error-status
result is returned **without** being appended, leaving the history unchanged.
Every invocation ends in one of those two statuses. -/
theorem workflow_history_append (now : String) (o : Orchestrator) (inp : WfInput) :
    ((executeWorkflow now o inp).2.status = "success" →
      (executeWorkflow now o inp).1.executionHistory =
        o.executionHistory ++ [(executeWorkflow now o inp).2]) ∧
    ((executeWorkflow now o inp).2.status = "error" →
      (executeWorkflow now o inp).1.executionHistory = o.executionHistory) ∧
    ((executeWorkflow now o inp).2.status = "success" ∨
      (executeWorkflow now o inp).2.status = "error") := by
  have hh := workflowTryBody_executionHistory now o inp
  unfold executeWorkflow
  rcases h : workflowTryBody now o inp with ⟨o', res⟩
  rw [h] at hh
  replace hh : o'.executionHistory = o.executionHistory := hh
  cases res with
  | ok r =>
    have hs : r.status = "success" := workflowTryBody_ok_status now o inp o' r h
    simp [hh, hs]
  | error e => simp [hh, errorWfResult]

/-- C4 counterexample: the invocation on `badInp` (string-valued likes count)
returns an error-status result and leaves the execution history empty — the
claim that **every** invocation, error results included, grows the history by
one fails here. -/
theorem workflow_history_append_cex :
    (executeWorkflow "t0" exOrch badInp).2.status = "error" ∧
    (executeWorkflow "t0" exOrch badInp).1.executionHistory = ([] : List WfResult) ∧
    exOrch.executionHistory = ([] : List WfResult) := by
  refine ⟨by decide, by decide, by decide⟩

/-- C4 witness: the amended theorem applied to a succeeding and to a failing
invocation. -/
theorem workflow_history_append_witness :
    (executeWorkflow "t1" exOrch goodInp).1.executionHistory =
      exOrch.executionHistory ++ [(executeWorkflow "t1" exOrch goodInp).2] ∧
    (executeWorkflow "t1" exOrch badInp).1.executionHistory =
      exOrch.executionHistory :=
  ⟨(workflow_history_append "t1" exOrch goodInp).1 (by decide),
   (workflow_history_append "t1" exOrch badInp).2.1 (by decide)⟩

/-- C5: `execute_workflow` is a total function — modelled without an error
monad in its result type, so no exception reaches the caller — and whenever
the `try` body (the three sub-agent steps) raises `e`, the invocation returns
the error-status result carrying exactly the stringified message `e` in its
`error` field, built from the state as the failing step left it; the body is
run exactly once, with no retry.  Every invocation ends with status
`"success"` or `"error"`. -/
theorem workflow_error_conversion (now : String) (o : Orchestrator) (inp : WfInput) :
    (∀ (o' : Orchestrator) (e : String),
      workflowTryBody now o inp = (o', .error e) →
      executeWorkflow now o inp = (o', errorWfResult now e) ∧
      (executeWorkflow now o inp).2.status = "error" ∧
      (executeWorkflow now o inp).2.error = some e) ∧
    ((executeWorkflow now o inp).2.status = "success" ∨
      (executeWorkflow now o inp).2.status = "error") := by
  constructor
  · intro o' e h
    unfold executeWorkflow
    rw [h]
    exact ⟨rfl, rfl, rfl⟩
  · unfold executeWorkflow
    rcases h : workflowTryBody now o inp with ⟨o', res⟩
    cases res with
    | ok r => exact Or.inl (workflowTryBody_ok_status now o inp o' r h)
    | error e => exact Or.inr rfl

/-- C5 witness: the theorem applied to the failing invocation on `badInp`,
whose `try` body raises the tracker's `TypeError`. -/
theorem workflow_error_conversion_witness :
    (executeWorkflow "t2" exOrch badInp).2.status = "error" ∧
    (executeWorkflow "t2" exOrch badInp).2.error =
      some "TypeError: unsupported operand type(s) for +" :=
  ⟨((workflow_error_conversion "t2" exOrch badInp).1
      (workflowTryBody "t2" exOrch badInp).1
      "TypeError: unsupported operand type(s) for +" rfl).2.1,
   ((workflow_error_conversion "t2" exOrch badInp).1
      (workflowTryBody "t2" exOrch badInp).1
      "TypeError: unsupported operand type(s) for +" rfl).2.2⟩

/-- Folding a call list through `add_to_memory` appends exactly one entry per
call, in call order. -/
lemma foldl_addToMemory (calls : List (String × String × String)) :
    ∀ mem : List MemEntry,
      calls.foldl (fun m c => addToMemory m c.1 c.2.1 c.2.2 none) mem =
        mem ++ calls.map (fun c =>
          { timestamp := c.1, role := c.2.1, content := c.2.2, metadata := [] }) := by
  induction calls with
  | nil => intro mem; simp
  | cons c cs ih =>
    intro mem
    rw [List.foldl_cons, ih]
    simp [addToMemory]

/-- C7 counterexample: after one `add_to_memory` call (N = 1), `get_memory`
with limit K = 0 ≤ N returns the full one-entry log, not the last 0 entries
(`[]`): a `0` limit is falsy in Python, so `if limit:` treats it like `None`. -/
theorem memory_limit_zero_cex :
    getMemory (addToMemory [] "t" "user" "hi" none) (some 0) =
      addToMemory [] "t" "user" "hi" none ∧
    getMemory (addToMemory [] "t" "user" "hi" none) (some 0) ≠ ([] : List MemEntry) := by
  constructor <;> decide

/-- C7 (amended): memory is strictly append-only and order-preserving — after
N `add_to_memory` calls the log is the N entries in call order, `get_memory`
with no limit returns all of them, and for every `1 ≤ K ≤ N` a limit of `K`
returns exactly the last K entries in order; a limit of `0` is falsy and
behaves like no limit.  Appending never modifies or removes existing
entries. -/
theorem memory_append_and_limit (mem : List MemEntry) (e : MemEntry) (K : ℕ)
    (calls : List (String × String × String)) :
    addToMemory mem e.timestamp e.role e.content (some e.metadata) = mem ++ [e] ∧
    calls.foldl (fun m c => addToMemory m c.1 c.2.1 c.2.2 none) mem =
      mem ++ calls.map (fun c =>
        { timestamp := c.1, role := c.2.1, content := c.2.2, metadata := [] }) ∧
    getMemory mem none = mem ∧
    getMemory mem (some 0) = mem ∧
    (1 ≤ K → K ≤ mem.length →
      getMemory mem (some (K : ℤ)) = mem.drop (mem.length - K)) := by
  refine ⟨rfl, foldl_addToMemory calls mem, rfl, rfl, fun h1 h2 => ?_⟩
  have hKz : (K : ℤ) ≠ 0 := by omega
  simp only [getMemory, listSliceFrom, if_neg hKz]
  rw [if_pos (by omega)]
  congr 1
  omega

/-- C7 witness: the amended theorem applied to the two-entry log `exMem` with
limit 1. -/
theorem memory_append_and_limit_witness :
    1 ≤ 1 ∧ 1 ≤ exMem.length ∧
    getMemory exMem (some (1 : ℤ)) = exMem.drop (exMem.length - 1) :=
  ⟨by decide, by decide,
   (memory_append_and_limit exMem
      { timestamp := "t", role := "u", content := "c", metadata := [] } 1 []).2.2.2.2
      (by decide) (by decide)⟩

/-- Pointwise reading of the aggregate-update loop: after folding one items
list into the aggregate, the value at `k` grew by exactly the numeric
contributions stored under `k`. -/
lemma updateAggregates_apply (items : List (String × PyVal)) :
    ∀ (agg : Agg) (k : String),
      updateAggregates agg items k = agg k + itemsContrib items k := by
  induction items with
  | nil => intro agg k; simp [updateAggregates, itemsContrib]
  | cons kv rest ih =>
    intro agg k
    rcases kv with ⟨k', v⟩
    cases v with
    | num q =>
      have step : updateAggregates agg ((k', PyVal.num q) :: rest) =
          updateAggregates (fun k2 => if k2 = k' then agg k' + q else agg k2) rest := rfl
      rw [step, ih, itemsContrib]
      by_cases h : k = k'
      · subst h
        simp
        ring
      · have h' : ¬ k' = k := fun hk => h hk.symm
        simp [h, h']
    | str s =>
      have step : updateAggregates agg ((k', PyVal.str s) :: rest) =
          updateAggregates agg rest := rfl
      rw [step, ih, itemsContrib]
      simp

/-- The processed dict `_process_metrics` returns does not depend on the
running aggregate; only the returned aggregate does (it is the old one plus
the processed items). -/
lemma processMetrics_shape (agg : Agg) (md : PyDict) :
    processMetrics agg md =
      (processMetrics (fun _ => 0) md).map
        (fun r => (updateAggregates agg r.2.items, r.2)) := by
  unfold processMetrics
  simp only [bind, Except.bind, pure, Except.pure, Except.map]
  rcases pyAdd (md.get "likes" (.num 0)) (md.get "comments" (.num 0)) with e | lc
  · rfl
  · dsimp only
    rcases pyAdd lc (md.get "shares" (.num 0)) with e | total
    · rfl
    · dsimp only
      rcases pyGtZero (md.get "impressions" (.num 1)) with e | gt
      · rfl
      · cases gt
        · rfl
        · dsimp only
          rcases pyDiv total (md.get "impressions" (.num 1)) with e | q <;> rfl

/-- One tracker `execute` call adds exactly that call's processed numeric
contribution to the aggregate at every key (and adds nothing when
`_process_metrics` raises); nothing resets it. -/
lemma trackerExecute_aggregated (now : String) (s : TrackerState) (md : PyDict)
    (k : String) :
    (trackerExecute now s md).1.aggregated k = s.aggregated k + callContrib md k := by
  unfold trackerExecute callContrib
  rw [processMetrics_shape s.aggregated md]
  cases hp : processMetrics (fun _ => 0) md with
  | error e => simp [hp, Except.map]
  | ok r =>
    cases ha : analyzePerformance r.2 <;>
      simp [hp, ha, Except.map, updateAggregates_apply]

/-- C8: the tracker's running aggregate is additive across `execute` calls —
after any sequence of calls, each key's aggregate entry is its starting value
plus the sum of that key's processed numeric values over all calls so far
(calls whose metrics raise contribute nothing), and no call ever resets it;
in particular two successive calls with `likes=10` and `likes=5` leave the
aggregate's `"likes"` entry at 15. -/
theorem tracker_aggregate_additive :
    (∀ (now : String) (s : TrackerState) (mds : List PyDict) (k : String),
      (mds.foldl (fun st md => (trackerExecute now st md).1) s).aggregated k =
        s.aggregated k + (mds.map (fun md => callContrib md k)).sum) ∧
    ((trackerExecute "t" ((trackerExecute "t" exOrch.engagementTracker
        [("likes", .num 10)]).1) [("likes", .num 5)]).1).aggregated "likes" = 15 := by
  constructor
  · intro now s mds k
    induction mds generalizing s with
    | nil => simp
    | cons md rest ih =>
      rw [List.foldl_cons, ih, List.map_cons, List.sum_cons,
        trackerExecute_aggregated]
      ring
  · decide

/-- C9: `TrendMonitorAgent.execute` is functionally independent of its
`query` and `time_range` inputs — for any two invocations (any query, any
time range, any timestamps) from the same agent state, the returned trend
list, analysis and insights are identical, and the trend list is always the
fixed 3-element mock list. -/
theorem trend_execute_input_independent (s : TrendState)
    (now1 now2 q1 t1 q2 t2 : String) :
    (trendExecute now1 s q1 t1).2.trends = (trendExecute now2 s q2 t2).2.trends ∧
    (trendExecute now1 s q1 t1).2.analysis = (trendExecute now2 s q2 t2).2.analysis ∧
    (trendExecute now1 s q1 t1).2.insights = (trendExecute now2 s q2 t2).2.insights ∧
    (trendExecute now1 s q1 t1).2.trends = collectTrendsData ∧
    collectTrendsData.length = 3 :=
  ⟨rfl, rfl, rfl, rfl, rfl⟩

/-- C10: `reset_state` replaces only the orchestrator state mapping with
empty values; the execution history, all three agent instances — hence each
agent's memory log — and the engagement tracker's running aggregate and
metrics history are untouched. -/
theorem reset_state_frame (o : Orchestrator) :
    (resetState o).state.trends = [] ∧
    (resetState o).state.generatedContent = [] ∧
    (resetState o).state.engagementMetrics = none ∧
    (resetState o).executionHistory = o.executionHistory ∧
    (resetState o).trendMonitor = o.trendMonitor ∧
    (resetState o).contentGenerator = o.contentGenerator ∧
    (resetState o).engagementTracker = o.engagementTracker ∧
    (resetState o).trendMonitor.memory = o.trendMonitor.memory ∧
    (resetState o).contentGenerator.memory = o.contentGenerator.memory ∧
    (resetState o).engagementTracker.memory = o.engagementTracker.memory ∧
    (resetState o).engagementTracker.aggregated = o.engagementTracker.aggregated ∧
    (resetState o).engagementTracker.metricsHistory =
      o.engagementTracker.metricsHistory :=
  ⟨rfl, rfl, rfl, rfl, rfl, rfl, rfl, rfl, rfl, rfl, rfl, rfl⟩

end SocialMediaAgent
